import Mathlib

/-!
Shallow embedding of `scripts/setup-priority-queues.py` (RabbitMQ priority
queue provisioning script) and proofs of the specified properties.

The broker is modelled as an oracle `Op → Bool`: for every channel operation
the script issues, the oracle answers `true` (the broker acknowledges) or
`false` (the pika call raises an exception).  Each setup function is embedded
as a pure function returning the list of operations it issues on the channel,
in order, together with the per-resource outcomes it observes, mirroring the
`try`/`except` structure of the source line by line.
-/

namespace PQSetup

/-- A value stored in an AMQP arguments table (the script only uses integers
and strings, lines 149-156). -/
inductive Val where
  | nat : Nat → Val
  | str : String → Val
deriving DecidableEq

/-- A channel operation issued by the script.  `queueDeclare` carries the
pika parameters the script actually passes: queue name, `durable`,
`arguments` (absent = `None`), `passive`, `exclusive`. -/
inductive Op where
  | exchangeDeclare (exchange : String) (ty : String) (durable : Bool)
  | queueDeclare (queue : String) (durable : Bool)
      (arguments : Option (List (String × Val))) (passive : Bool) (exclusive : Bool)
  | queueBind (exchange : String) (queue : String) (routingKey : String)
deriving DecidableEq

/-- One entry of the `PRIORITY_QUEUES` configuration dict (lines 21-58). -/
structure QueueConfig where
  max_priority : Nat
  ttl : Nat
  max_length : Nat
  routing_key : String
deriving DecidableEq

/-- `PRIORITY_QUEUES` (lines 21-58), in the dict's insertion order. -/
def PRIORITY_QUEUES : List (String × QueueConfig) :=
  [("critical-priority-queue", ⟨255, 60000, 1000, "priority.critical"⟩),
   ("high-priority-queue", ⟨200, 300000, 5000, "priority.high"⟩),
   ("normal-priority-queue", ⟨100, 600000, 10000, "priority.normal"⟩),
   ("low-priority-queue", ⟨50, 1800000, 20000, "priority.low"⟩),
   ("batch-queue", ⟨10, 3600000, 50000, "priority.batch"⟩),
   ("anomaly-queue", ⟨150, 300000, 2000, "anomaly.detected"⟩)]

/-- One entry of the `EXCHANGES` configuration dict (lines 61-74). -/
structure ExchangeConfig where
  type : String
  durable : Bool
deriving DecidableEq

/-- `EXCHANGES` (lines 61-74), in the dict's insertion order. -/
def EXCHANGES : List (String × ExchangeConfig) :=
  [("priority-exchange", ⟨"topic", true⟩),
   ("anomaly-exchange", ⟨"direct", true⟩),
   ("dlq-exchange", ⟨"direct", true⟩)]

/-- The `DLQ_QUEUE` configuration dict (lines 77-81). -/
structure DlqConfig where
  name : String
  durable : Bool
  routing_key : String
deriving DecidableEq

/-- `DLQ_QUEUE` (lines 77-81). -/
def DLQ_QUEUE : DlqConfig := ⟨"dlq-queue", true, "failed"⟩

/-- Python's `needle in hay` prefix test helper: does `h` start with `n`? -/
def pyStarts : List Char → List Char → Bool
  | [], _ => true
  | _ :: _, [] => false
  | a :: as, b :: bs => a == b && pyStarts as bs

/-- Python's substring operator `n in h` on strings, over character lists
(used at line 166: `if "anomaly" in queue_name`). -/
def pySubstr (n : List Char) : List Char → Bool
  | [] => n.isEmpty
  | b :: bs => pyStarts n (b :: bs) || pySubstr n bs

/-- `wait_for_rabbitmq`'s retry loop (lines 85-100): try probe `attempt`;
on success stop, otherwise retry with the next attempt index while fuel
remains.  Returns (connected?, number of probe attempts made). -/
def waitLoop (probe : Nat → Bool) : Nat → Nat → Bool × Nat
  | _, 0 => (false, 0)
  | attempt, fuel + 1 =>
    if probe attempt then (true, 1)
    else
      let r := waitLoop probe (attempt + 1) fuel
      (r.1, r.2 + 1)

/-- `wait_for_rabbitmq` (lines 83-103).  `probe i` tells whether the `i`-th
connection attempt succeeds; the source's default budget is
`max_attempts=30`.  Returns (connected?, attempts made). -/
def wait_for_rabbitmq (probe : Nat → Bool) (max_attempts : Nat) : Bool × Nat :=
  waitLoop probe 0 max_attempts

/-- `setup_exchanges` (lines 105-118): declare each configured exchange, each
in its own `try`/`except`, so every declaration is attempted regardless of
earlier failures.  Returns (operations issued, per-exchange outcomes). -/
def setup_exchanges (broker : Op → Bool) : List Op × List (String × Bool) :=
  EXCHANGES.foldl
    (fun acc e =>
      let op := Op.exchangeDeclare e.1 e.2.type e.2.durable
      (acc.1 ++ [op], acc.2 ++ [(e.1, broker op)]))
    ([], [])

/-- The DLQ declaration issued at lines 126-129 (no `arguments` are passed). -/
def dlqDeclareOp : Op := Op.queueDeclare DLQ_QUEUE.name DLQ_QUEUE.durable none false false

/-- The DLQ binding issued at lines 132-136. -/
def dlqBindOp : Op := Op.queueBind "dlq-exchange" DLQ_QUEUE.name DLQ_QUEUE.routing_key

/-- `setup_dlq` (lines 120-140): declare the DLQ then bind it, both inside
one `try`, so a failed declaration skips the bind.  Returns (operations
issued, overall outcome). -/
def setup_dlq (broker : Op → Bool) : List Op × Bool :=
  if broker dlqDeclareOp then
    ([dlqDeclareOp, dlqBindOp], broker dlqBindOp)
  else
    ([dlqDeclareOp], false)

/-- The `arguments` dict computed per queue at lines 149-156. -/
def queueArguments (config : QueueConfig) : List (String × Val) :=
  [("x-max-priority", Val.nat config.max_priority),
   ("x-message-ttl", Val.nat config.ttl),
   ("x-max-length", Val.nat config.max_length),
   ("x-dead-letter-exchange", Val.str "dlq-exchange"),
   ("x-dead-letter-routing-key", Val.str "failed"),
   ("x-overflow", Val.str "reject-publish")]

/-- The routing classification at lines 166-169: anomaly exchange iff the
queue name contains the substring "anomaly". -/
def classifyExchange (queue_name : String) : String :=
  if pySubstr "anomaly".toList queue_name.toList then "anomaly-exchange"
  else "priority-exchange"

/-- The priority-queue declaration issued at lines 159-163. -/
def queueDeclareOp (queue_name : String) (config : QueueConfig) : Op :=
  Op.queueDeclare queue_name true (some (queueArguments config)) false false

/-- The priority-queue binding issued at lines 171-175. -/
def queueBindOp (queue_name : String) (config : QueueConfig) : Op :=
  Op.queueBind (classifyExchange queue_name) queue_name config.routing_key

/-- One iteration of the loop at lines 146-180: declare the queue, and only
if that succeeds bind it (both are inside the same `try`). -/
def setupOneQueue (broker : Op → Bool) (queue_name : String) (config : QueueConfig) :
    List Op × Bool :=
  if broker (queueDeclareOp queue_name config) then
    ([queueDeclareOp queue_name config, queueBindOp queue_name config],
     broker (queueBindOp queue_name config))
  else
    ([queueDeclareOp queue_name config], false)

/-- `setup_priority_queues` (lines 142-180): run the declare-then-bind body
for every configured queue; each iteration has its own `try`/`except`, so a
failure in one queue never stops the others.  Returns (operations issued,
per-queue outcomes). -/
def setup_priority_queues (broker : Op → Bool) : List Op × List (String × Bool) :=
  ((PRIORITY_QUEUES.map fun q => (setupOneQueue broker q.1 q.2).1).flatten,
   PRIORITY_QUEUES.map fun q => (q.1, (setupOneQueue broker q.1 q.2).2))

/-- The temporary passive probe at line 188:
`queue_declare(queue='', passive=True, exclusive=True)`. -/
def verifyProbeOp : Op := Op.queueDeclare "" false none true true

/-- The passive existence check at lines 193 and 200:
`queue_declare(queue=name, passive=True)`. -/
def verifyCheckOp (queue_name : String) : Op :=
  Op.queueDeclare queue_name false none true false

/-- The queue names checked by `verify_setup`, in order (lines 191-203):
the six priority queues then the DLQ. -/
def verifyNames : List String := PRIORITY_QUEUES.map Prod.fst ++ [DLQ_QUEUE.name]

/-- `verify_setup` (lines 182-206): the initial temporary passive probe is
inside the outer `try` but outside the per-queue `try`s, so if it raises the
outer `except` catches it and no per-queue check runs; otherwise each queue
name gets a passive check with an individually recorded outcome.  Returns
(operations issued, per-name outcomes: `true` = present, `false` = absent). -/
def verify_setup (broker : Op → Bool) : List Op × List (String × Bool) :=
  if broker verifyProbeOp then
    (verifyProbeOp :: verifyNames.map verifyCheckOp,
     verifyNames.map fun n => (n, broker (verifyCheckOp n)))
  else
    ([verifyProbeOp], [])

/-- One per-queue block printed by `print_queue_summary` (lines 213-219).
All configured TTLs are multiples of 1000, so Python's float division
`ttl/1000` prints as the integer quotient followed by `.0`. -/
def summaryBlock (queue_name : String) (config : QueueConfig) : List String :=
  ["🎯 " ++ queue_name,
   "   Priority: " ++ toString config.max_priority ++ "/255",
   "   TTL: " ++ toString (config.ttl / 1000) ++ ".0s",
   "   Max Length: " ++ toString config.max_length,
   "   Routing: " ++ config.routing_key,
   ""]

/-- `print_queue_summary` (lines 208-219), as the list of lines it prints.
It takes no inputs at all: in particular it receives neither a provisioning
report nor a verification report. -/
def print_queue_summary : List String :=
  ["\n📊 Priority Queue Yapılandırması:", String.mk (List.replicate 60 '=')] ++
    (PRIORITY_QUEUES.map fun q => summaryBlock q.1 q.2).flatten

/-- The provisioning operations issued by the three setup calls at lines
244-246, in program order. -/
def provisionTrace (broker : Op → Bool) : List Op :=
  (setup_exchanges broker).1 ++ (setup_dlq broker).1 ++ (setup_priority_queues broker).1

/-- `main` (lines 221-261): if the readiness wait fails, exit 1 with no
channel operation issued; otherwise open the connection (`connectOk` models
whether lines 232-241 raise), and on connection failure exit 1 with no
channel operation issued, else run all four stages and exit 0.  Every
channel-level failure inside the stages is caught locally, so it never
reaches `main`'s `except`.  Returns (operations issued, process exit code). -/
def main (probe : Nat → Bool) (connectOk : Bool) (broker : Op → Bool) :
    List Op × Nat :=
  if (wait_for_rabbitmq probe 30).1 then
    if connectOk then
      (provisionTrace broker ++ (verify_setup broker).1, 0)
    else ([], 1)
  else ([], 1)

/-- The six argument keys as the specification names them. -/
def specArgKeys : List String :=
  ["max-priority", "message-ttl", "max-length",
   "dead-letter-exchange", "dead-letter-routing-key", "overflow-policy"]

/-- The broker wire name of each spec-level argument key: the AMQP `x-`
prefix, with `overflow-policy` carried on the wire as `x-overflow`. -/
def wireKey (k : String) : String :=
  if k == "overflow-policy" then "x-overflow" else "x-" ++ k

/-- A broker oracle that rejects exactly the queue operations (declare or
bind) touching queue `f` and acknowledges everything else. -/
def failOnly (f : String) : Op → Bool
  | Op.exchangeDeclare .. => true
  | Op.queueDeclare q .. => q != f
  | Op.queueBind _ q _ => q != f

/-- Whether an operation is a passive (hence non-mutating) queue lookup. -/
def opPassive : Op → Bool
  | Op.queueDeclare _ _ _ p _ => p
  | _ => false

/-- Whether an operation is a non-passive (mutating) declaration of the
queue `dlq-queue`. -/
def isDlqActiveDeclare : Op → Bool
  | Op.queueDeclare q _ _ p _ => q == "dlq-queue" && !p
  | _ => false

/-- Whether an operation binds the queue `dlq-queue`. -/
def isDlqBind : Op → Bool
  | Op.queueBind _ q _ => q == "dlq-queue"
  | _ => false

/-- The arguments table attached to a queue declaration, if any. -/
def opArguments : Op → Option (List (String × Val))
  | Op.queueDeclare _ _ a _ _ => a
  | _ => none

/-- The durability flag of a declaration operation. -/
def opDurable : Op → Bool
  | Op.queueDeclare _ d _ _ _ => d
  | Op.exchangeDeclare _ _ d => d
  | _ => false

/-! ### Helper lemmas -/

/-- `pyStarts n h` holds exactly when `n` is a prefix of `h`. -/
theorem pyStarts_iff (n h : List Char) : pyStarts n h = true ↔ ∃ t, n ++ t = h := by
  induction n generalizing h with
  | nil => simp [pyStarts]
  | cons a as ih =>
    cases h with
    | nil => simp [pyStarts]
    | cons b bs => simp [pyStarts, ih, List.cons_append, exists_and_left]

/-- `pySubstr n h` holds exactly when `n` occurs as a contiguous substring
of `h`, matching Python's `n in h`. -/
theorem pySubstr_iff (n h : List Char) :
    pySubstr n h = true ↔ ∃ s t, s ++ n ++ t = h := by
  induction h with
  | nil =>
    cases n with
    | nil => exact ⟨fun _ => ⟨[], [], rfl⟩, fun _ => rfl⟩
    | cons a as => simp [pySubstr, List.isEmpty]
  | cons b bs ih =>
    simp only [pySubstr, Bool.or_eq_true, pyStarts_iff, ih]
    constructor
    · rintro (⟨t, ht⟩ | ⟨s, t, ht⟩)
      · exact ⟨[], t, ht⟩
      · exact ⟨b :: s, t, by simp [List.cons_append, ht]⟩
    · rintro ⟨s, t, hst⟩
      cases s with
      | nil => exact Or.inl ⟨t, hst⟩
      | cons c cs =>
        simp only [List.cons_append] at hst
        injection hst with h1 h2
        exact Or.inr ⟨cs, t, h2⟩

/-- The operations issued by `setup_dlq` are the declaration alone (when the
broker rejects it) or the declaration followed by the binding. -/
theorem setup_dlq_trace (broker : Op → Bool) :
    (setup_dlq broker).1 = [dlqDeclareOp] ∨
    (setup_dlq broker).1 = [dlqDeclareOp, dlqBindOp] := by
  unfold setup_dlq
  cases broker dlqDeclareOp with
  | false => exact Or.inl rfl
  | true => exact Or.inr rfl

/-- The operations issued by one priority-queue iteration are the
declaration alone (when the broker rejects it) or the declaration followed
by the binding. -/
theorem setupOneQueue_trace (broker : Op → Bool) (queue_name : String)
    (config : QueueConfig) :
    (setupOneQueue broker queue_name config).1 = [queueDeclareOp queue_name config] ∨
    (setupOneQueue broker queue_name config).1 =
      [queueDeclareOp queue_name config, queueBindOp queue_name config] := by
  unfold setupOneQueue
  cases broker (queueDeclareOp queue_name config) with
  | false => exact Or.inl rfl
  | true => exact Or.inr rfl

/-- The operations issued by `verify_setup` are the temporary probe alone
(when the broker rejects it) or the probe followed by one passive check per
verified name. -/
theorem verify_trace_cases (broker : Op → Bool) :
    (verify_setup broker).1 = [verifyProbeOp] ∨
    (verify_setup broker).1 = verifyProbeOp :: verifyNames.map verifyCheckOp := by
  unfold verify_setup
  cases broker verifyProbeOp with
  | false => exact Or.inl rfl
  | true => exact Or.inr rfl

/-- With a responsive probe, the operations a full run issues are exactly
the four stage traces in program order. -/
theorem main_trace_eq (broker : Op → Bool) :
    (main (fun _ => true) true broker).1 =
      (setup_exchanges broker).1 ++ ((setup_dlq broker).1 ++
        ((setup_priority_queues broker).1 ++ (verify_setup broker).1)) := by
  have hw : (wait_for_rabbitmq (fun _ => true) 30).1 = true := rfl
  simp [main, hw, provisionTrace, List.append_assoc]

/-- Filtering a flattened map is empty when it is empty piecewise. -/
theorem filter_flatten_map_nil {α β : Type} (p : β → Bool) (f : α → List β) :
    ∀ l : List α, (∀ x ∈ l, (f x).filter p = []) →
      ((l.map f).flatten).filter p = [] := by
  intro l
  induction l with
  | nil => intro _; rfl
  | cons a t ih =>
    intro h
    have ha := h a (List.mem_cons_self a t)
    have ht := ih fun x hx => h x (List.mem_cons_of_mem a hx)
    simp [List.filter_append, ha, ht]

/-- Each member's image appears as a contiguous segment of a flattened map. -/
theorem flatten_map_mem_decomp {α β : Type} (f : α → List β) :
    ∀ (l : List α) (x : α), x ∈ l →
      ∃ pre post, (l.map f).flatten = pre ++ (f x ++ post) := by
  intro l
  induction l with
  | nil => intro x hx; cases hx
  | cons a t ih =>
    intro x hx
    rcases List.mem_cons.mp hx with rfl | hx'
    · exact ⟨[], (t.map f).flatten, by simp⟩
    · rcases ih x hx' with ⟨pre, post, hp⟩
      exact ⟨f a ++ pre, post, by simp [hp]⟩

/-! ### Claims -/

/-- C1: for every configured queue spec, the arguments mapping computed at
provisioning time has exactly the six keys of the spec (on the wire: their
`x-`-prefixed AMQP names, in the order of `specArgKeys`), with no duplicate
key, and the value at each key equals the corresponding field of the spec;
for `critical-priority-queue` the values are concretely 255, 60000, 1000,
"dlq-exchange", "failed", "reject-publish"; and the derivation is a pure
function, so recomputing it from the same spec yields an identical mapping. -/
theorem queueArguments_exact_keys :
    (∀ q ∈ PRIORITY_QUEUES,
      (queueArguments q.2).map Prod.fst = specArgKeys.map wireKey ∧
      ((queueArguments q.2).map Prod.fst).Nodup ∧
      (queueArguments q.2).length = 6 ∧
      (queueArguments q.2).lookup "x-max-priority" = some (Val.nat q.2.max_priority) ∧
      (queueArguments q.2).lookup "x-message-ttl" = some (Val.nat q.2.ttl) ∧
      (queueArguments q.2).lookup "x-max-length" = some (Val.nat q.2.max_length) ∧
      (queueArguments q.2).lookup "x-dead-letter-exchange" = some (Val.str "dlq-exchange") ∧
      (queueArguments q.2).lookup "x-dead-letter-routing-key" = some (Val.str "failed") ∧
      (queueArguments q.2).lookup "x-overflow" = some (Val.str "reject-publish")) ∧
    queueArguments ⟨255, 60000, 1000, "priority.critical"⟩ =
      [("x-max-priority", Val.nat 255), ("x-message-ttl", Val.nat 60000),
       ("x-max-length", Val.nat 1000), ("x-dead-letter-exchange", Val.str "dlq-exchange"),
       ("x-dead-letter-routing-key", Val.str "failed"),
       ("x-overflow", Val.str "reject-publish")] ∧
    (∀ config : QueueConfig, queueArguments config = queueArguments config) :=
  ⟨by decide, rfl, fun _ => rfl⟩

/-- Witness for C1: instantiated at `critical-priority-queue`. -/
theorem queueArguments_exact_keys_witness :
    ("critical-priority-queue", (⟨255, 60000, 1000, "priority.critical"⟩ : QueueConfig))
      ∈ PRIORITY_QUEUES ∧
    (queueArguments ⟨255, 60000, 1000, "priority.critical"⟩).lookup "x-max-priority"
      = some (Val.nat 255) :=
  ⟨by decide,
   (queueArguments_exact_keys.1
     ("critical-priority-queue", ⟨255, 60000, 1000, "priority.critical"⟩)
     (by decide)).2.2.2.1⟩

/-- C2: routing classification is total and deterministic: for an arbitrary
queue name the target exchange is `anomaly-exchange` iff the name contains
the substring "anomaly" (case-sensitive), and `priority-exchange` iff it
does not; in particular `anomaly-queue` classifies to `anomaly-exchange`,
and its binding operation — issued by the priority-queue setup — binds
`anomaly-queue` to `anomaly-exchange` with routing key "anomaly.detected". -/
theorem routing_classification :
    (∀ name : String,
      (classifyExchange name = "anomaly-exchange" ↔
        ∃ s t, s ++ "anomaly".toList ++ t = name.toList) ∧
      (classifyExchange name = "priority-exchange" ↔
        ¬∃ s t, s ++ "anomaly".toList ++ t = name.toList)) ∧
    classifyExchange "anomaly-queue" = "anomaly-exchange" ∧
    queueBindOp "anomaly-queue" ⟨150, 300000, 2000, "anomaly.detected"⟩ =
      Op.queueBind "anomaly-exchange" "anomaly-queue" "anomaly.detected" ∧
    Op.queueBind "anomaly-exchange" "anomaly-queue" "anomaly.detected" ∈
      (setup_priority_queues fun _ => true).1 := by
  refine ⟨fun name => ?_, by decide, by decide, by decide⟩
  have h := pySubstr_iff "anomaly".toList name.toList
  unfold classifyExchange
  cases hps : pySubstr "anomaly".toList name.toList with
  | false =>
    have hno : ¬∃ s t, s ++ "anomaly".toList ++ t = name.toList := fun hex => by
      rw [← h, hps] at hex
      exact Bool.false_ne_true hex
    exact ⟨⟨fun he => absurd (show "priority-exchange" = "anomaly-exchange" from he)
              (by decide),
            fun hex => absurd hex hno⟩,
           ⟨fun _ => hno, fun _ => rfl⟩⟩
  | true =>
    have hyes := h.mp hps
    exact ⟨⟨fun _ => hyes, fun _ => rfl⟩,
           ⟨fun he => absurd (show "anomaly-exchange" = "priority-exchange" from he)
              (by decide),
            fun hn => absurd hyes hn⟩⟩

/-- Witness for C2: instantiated at the non-configured name
"task-anomaly-detector" (classified anomaly) and at "batch-queue"
(classified priority). -/
theorem routing_classification_witness :
    classifyExchange "task-anomaly-detector" = "anomaly-exchange" ∧
    classifyExchange "batch-queue" = "priority-exchange" :=
  ⟨((routing_classification.1 "task-anomaly-detector").1).mpr
      ⟨"task-".toList, "-detector".toList, by decide⟩,
   ((routing_classification.1 "batch-queue").2).mpr (fun hex => by
      have := (pySubstr_iff "anomaly".toList "batch-queue".toList).mpr hex
      exact absurd this (by decide))⟩

/-- C3: partial-failure isolation — for any single configured queue `f`
whose declare and bind are forced to fail, the run still reports one outcome
per configured queue in order (failure only at `f`), still issues the
declaration of every configured queue and the binding of every queue other
than `f`, leaves the exchange and DLQ stages fully successful, and the
process still runs to completion with exit code 0. -/
theorem partial_failure_isolation :
    ∀ f ∈ PRIORITY_QUEUES.map Prod.fst,
      (setup_priority_queues (failOnly f)).2 =
        PRIORITY_QUEUES.map (fun q => (q.1, q.1 != f)) ∧
      (∀ q ∈ PRIORITY_QUEUES,
        queueDeclareOp q.1 q.2 ∈ (setup_priority_queues (failOnly f)).1) ∧
      (∀ q ∈ PRIORITY_QUEUES, q.1 ≠ f →
        queueBindOp q.1 q.2 ∈ (setup_priority_queues (failOnly f)).1) ∧
      (setup_exchanges (failOnly f)).2 = EXCHANGES.map (fun e => (e.1, true)) ∧
      (setup_dlq (failOnly f)).2 = true ∧
      (main (fun _ => true) true (failOnly f)).2 = 0 := by decide

/-- Witness for C3: instantiated at the failing queue
`critical-priority-queue`. -/
theorem partial_failure_isolation_witness :
    "critical-priority-queue" ∈ PRIORITY_QUEUES.map Prod.fst ∧
    (setup_priority_queues (failOnly "critical-priority-queue")).2 =
      PRIORITY_QUEUES.map (fun q => (q.1, q.1 != "critical-priority-queue")) :=
  ⟨by decide, (partial_failure_isolation "critical-priority-queue" (by decide)).1⟩

/-- If the first `k` probes starting at `s` fail and probe `s + k` succeeds
within the fuel, the loop stops successfully after `k + 1` attempts. -/
theorem waitLoop_succeeds (probe : Nat → Bool) :
    ∀ (k s fuel : Nat), k < fuel → (∀ i, i < k → probe (s + i) = false) →
      probe (s + k) = true → waitLoop probe s fuel = (true, k + 1) := by
  intro k
  induction k with
  | zero =>
    intro s fuel hk _ hp
    cases fuel with
    | zero => omega
    | succ f =>
      rw [Nat.add_zero] at hp
      simp [waitLoop, hp]
  | succ k ih =>
    intro s fuel hk hfail hp
    cases fuel with
    | zero => omega
    | succ f =>
      have h0 : probe s = false := by
        have := hfail 0 (Nat.succ_pos k)
        rwa [Nat.add_zero] at this
      have hrec := ih (s + 1) f (by omega)
        (fun i hi => by
          have := hfail (i + 1) (by omega)
          rwa [show s + (i + 1) = s + 1 + i by omega] at this)
        (by rwa [show s + 1 + k = s + (k + 1) by omega])
      simp [waitLoop, h0, hrec]

/-- If every probe within the fuel fails, the loop exhausts its fuel and
reports failure after exactly `fuel` attempts. -/
theorem waitLoop_exhausts (probe : Nat → Bool) :
    ∀ (fuel s : Nat), (∀ i, i < fuel → probe (s + i) = false) →
      waitLoop probe s fuel = (false, fuel) := by
  intro fuel
  induction fuel with
  | zero => intro s _; rfl
  | succ f ih =>
    intro s hfail
    have h0 : probe s = false := by
      have := hfail 0 (Nat.succ_pos f)
      rwa [Nat.add_zero] at this
    have hrec := ih (s + 1) (fun i hi => by
      have := hfail (i + 1) (by omega)
      rwa [show s + (i + 1) = s + 1 + i by omega] at this)
    simp [waitLoop, h0, hrec]

/-- C4: readiness bound — a broker failing exactly the first `k`
connectivity probes (`k` below the attempt budget) and then succeeding makes
the readiness waiter report success after exactly `k + 1` attempts; a broker
failing every probe makes it report failure after exactly the full budget,
and in that case the process run issues no channel operation at all (empty
trace) and exits 1. -/
theorem readiness_bound :
    (∀ (probe : Nat → Bool) (k max_attempts : Nat),
      k < max_attempts → (∀ i, i < k → probe i = false) → probe k = true →
      wait_for_rabbitmq probe max_attempts = (true, k + 1)) ∧
    (∀ (probe : Nat → Bool) (max_attempts : Nat),
      (∀ i, i < max_attempts → probe i = false) →
      wait_for_rabbitmq probe max_attempts = (false, max_attempts)) ∧
    (∀ probe : Nat → Bool, (∀ i, i < 30 → probe i = false) →
      ∀ (connectOk : Bool) (broker : Op → Bool),
        main probe connectOk broker = ([], 1)) := by
  refine ⟨?_, ?_, ?_⟩
  · intro probe k m hk hf hp
    exact waitLoop_succeeds probe k 0 m hk (fun i hi => by simpa using hf i hi)
      (by simpa using hp)
  · intro probe m hf
    exact waitLoop_exhausts probe m 0 (fun i hi => by simpa using hf i hi)
  · intro probe hf c b
    have hw : wait_for_rabbitmq probe 30 = (false, 30) :=
      waitLoop_exhausts probe 30 0 (fun i hi => by simpa using hf i hi)
    simp [main, hw]

/-- Witness for C4: a broker succeeding first at probe index 2 yields
success in 3 attempts; an always-failing broker exhausts a 7-attempt budget,
and under the 30-attempt budget of `main` yields an empty trace and exit 1. -/
theorem readiness_bound_witness :
    wait_for_rabbitmq (fun i => i == 2) 30 = (true, 3) ∧
    wait_for_rabbitmq (fun _ => false) 7 = (false, 7) ∧
    main (fun _ => false) true (fun _ => true) = ([], 1) :=
  ⟨readiness_bound.1 (fun i => i == 2) 2 30 (by decide) (by decide) (by decide),
   readiness_bound.2.1 (fun _ => false) 7 (fun _ _ => rfl),
   readiness_bound.2.2 (fun _ => false) (fun _ _ => rfl) true (fun _ => true)⟩

/-- C5: the process exits 0 exactly when the readiness wait succeeded and
the broker connection opened (so the run proceeds through all stages), and
the exit code is entirely independent of the broker's answers to the
individual declare/bind/verification operations. -/
theorem exit_code_spec :
    ∀ (probe : Nat → Bool) (connectOk : Bool) (broker broker' : Op → Bool),
      ((main probe connectOk broker).2 = 0 ↔
        ((wait_for_rabbitmq probe 30).1 = true ∧ connectOk = true)) ∧
      (main probe connectOk broker).2 = (main probe connectOk broker').2 := by
  intro probe c b b'
  unfold main
  cases hw : (wait_for_rabbitmq probe 30).1 <;> cases c <;> simp

/-- C6 counterexample: under a broker that rejects only the initial
temporary passive probe of line 188 (and would answer every per-queue check),
the run reaches the verification stage — the probe is issued — yet the
verifier produces no Present/Absent outcome for any of the seven queue
names, because the outer `except` catches the probe failure before any
per-queue check runs. -/
theorem verify_claim_counterexample :
    (verify_setup fun op => decide (op ≠ verifyProbeOp)).1 = [verifyProbeOp] ∧
    (verify_setup fun op => decide (op ≠ verifyProbeOp)).2 = [] ∧
    (fun op => decide (op ≠ verifyProbeOp)) (verifyCheckOp "critical-priority-queue")
      = true ∧
    verifyNames.length = 7 := by decide

/-- C6 amended: every operation the verifier issues is a passive
(non-mutating, never-creating) queue lookup, and on every run whose initial
temporary passive probe succeeds it produces one Present-or-Absent outcome
for each of the six priority queues and for the dead-letter queue, in
order. -/
theorem verify_passive_complete :
    ∀ broker : Op → Bool,
      (∀ op ∈ (verify_setup broker).1, opPassive op = true) ∧
      (broker verifyProbeOp = true →
        (verify_setup broker).2 =
          verifyNames.map (fun n => (n, broker (verifyCheckOp n))) ∧
        verifyNames = ["critical-priority-queue", "high-priority-queue",
          "normal-priority-queue", "low-priority-queue", "batch-queue",
          "anomaly-queue", "dlq-queue"]) := by
  intro broker
  constructor
  · intro op hop
    rcases verify_trace_cases broker with h | h <;> rw [h] at hop
    · rcases List.mem_singleton.mp hop with rfl
      rfl
    · rcases List.mem_cons.mp hop with rfl | hop'
      · rfl
      · rcases List.mem_map.mp hop' with ⟨n, _, rfl⟩
        rfl
  · intro hb
    unfold verify_setup
    rw [hb]
    exact ⟨rfl, rfl⟩

/-- Witness for C6 amended: instantiated at the all-acknowledging broker,
every verified name reports Present. -/
theorem verify_passive_complete_witness :
    (verify_setup fun _ => true).2 = verifyNames.map (fun n => (n, true)) :=
  ((verify_passive_complete fun _ => true).2 rfl).1

/-- C7 counterexample: with an all-acknowledging broker, the priority-queue
stage issues the binding of `critical-priority-queue` (position 1 of its
trace) before the declaration of `high-priority-queue` (position 2), so it
is not the case that every priority-queue declaration precedes every
priority-queue binding. -/
theorem step_order_counterexample :
    ((setup_priority_queues fun _ => true).1)[1]? =
      some (Op.queueBind "priority-exchange" "critical-priority-queue"
        "priority.critical") ∧
    ((setup_priority_queues fun _ => true).1)[2]? =
      some (queueDeclareOp "high-priority-queue"
        ⟨200, 300000, 5000, "priority.high"⟩) := by decide

/-- C7 amended: within a run the three exchange declarations come first,
then the dead-letter queue's declaration (and, on success, its binding),
then the priority-queue stage, then verification; inside the priority-queue
stage the per-queue traces are concatenated in configuration order and each
queue's declaration is issued immediately before that same queue's binding —
declarations and bindings interleave per queue rather than all declarations
preceding all bindings. -/
theorem step_order_amended :
    ∀ broker : Op → Bool,
      (main (fun _ => true) true broker).1 =
        (setup_exchanges broker).1 ++ ((setup_dlq broker).1 ++
          ((setup_priority_queues broker).1 ++ (verify_setup broker).1)) ∧
      (setup_exchanges broker).1 =
        [Op.exchangeDeclare "priority-exchange" "topic" true,
         Op.exchangeDeclare "anomaly-exchange" "direct" true,
         Op.exchangeDeclare "dlq-exchange" "direct" true] ∧
      ((setup_dlq broker).1 = [dlqDeclareOp] ∨
       (setup_dlq broker).1 = [dlqDeclareOp, dlqBindOp]) ∧
      (setup_priority_queues broker).1 =
        (PRIORITY_QUEUES.map fun q => (setupOneQueue broker q.1 q.2).1).flatten ∧
      (∀ (queue_name : String) (config : QueueConfig),
        (setupOneQueue broker queue_name config).1 =
          [queueDeclareOp queue_name config] ∨
        (setupOneQueue broker queue_name config).1 =
          [queueDeclareOp queue_name config, queueBindOp queue_name config]) :=
  fun broker =>
    ⟨main_trace_eq broker, rfl, setup_dlq_trace broker, rfl,
     fun queue_name config => setupOneQueue_trace broker queue_name config⟩

/-- C8: in every full run (for an arbitrary broker), exactly one mutating
declaration of `dlq-queue` is issued — durable, and with no arguments —
regardless of how many priority queues name `dlq-queue` as their dead-letter
target; every binding of `dlq-queue` that is ever issued binds it to
`dlq-exchange` under routing key "failed", and with an acknowledging broker
that binding is issued exactly once. -/
theorem dlq_declared_once :
    ∀ broker : Op → Bool,
      (main (fun _ => true) true broker).1.filter (fun op => isDlqActiveDeclare op) =
        [Op.queueDeclare "dlq-queue" true none false false] ∧
      (main (fun _ => true) true broker).1.countP (fun op => isDlqActiveDeclare op) = 1 ∧
      ((main (fun _ => true) true broker).1.filter (fun op => isDlqBind op) = [] ∨
       (main (fun _ => true) true broker).1.filter (fun op => isDlqBind op) =
         [Op.queueBind "dlq-exchange" "dlq-queue" "failed"]) ∧
      (main (fun _ => true) true (fun _ => true)).1.filter (fun op => isDlqBind op) =
        [Op.queueBind "dlq-exchange" "dlq-queue" "failed"] := by
  intro broker
  have hnames : ∀ q ∈ PRIORITY_QUEUES, (q.1 == "dlq-queue") = false := by decide
  have hex1 : (setup_exchanges broker).1.filter (fun op => isDlqActiveDeclare op) = [] :=
    rfl
  have hex2 : (setup_exchanges broker).1.filter (fun op => isDlqBind op) = [] := rfl
  have hpq1 : (setup_priority_queues broker).1.filter
      (fun op => isDlqActiveDeclare op) = [] := by
    apply filter_flatten_map_nil
    intro q hq
    rcases setupOneQueue_trace broker q.1 q.2 with h | h <;>
      simp [h, isDlqActiveDeclare, queueDeclareOp, queueBindOp, hnames q hq]
  have hpq2 : (setup_priority_queues broker).1.filter (fun op => isDlqBind op) = [] := by
    apply filter_flatten_map_nil
    intro q hq
    rcases setupOneQueue_trace broker q.1 q.2 with h | h <;>
      simp [h, isDlqBind, queueDeclareOp, queueBindOp, hnames q hq]
  have hver1 : (verify_setup broker).1.filter (fun op => isDlqActiveDeclare op) = [] := by
    rcases verify_trace_cases broker with h | h <;> rw [h] <;> decide
  have hver2 : (verify_setup broker).1.filter (fun op => isDlqBind op) = [] := by
    rcases verify_trace_cases broker with h | h <;> rw [h] <;> decide
  have hfilter1 : (main (fun _ => true) true broker).1.filter
      (fun op => isDlqActiveDeclare op) =
      [Op.queueDeclare "dlq-queue" true none false false] := by
    rw [main_trace_eq broker, List.filter_append, List.filter_append,
      List.filter_append, hex1, hpq1, hver1]
    rcases setup_dlq_trace broker with h | h <;> rw [h] <;> rfl
  refine ⟨hfilter1, ?_, ?_, by decide⟩
  · rw [List.countP_eq_length_filter, hfilter1]
    rfl
  · rw [main_trace_eq broker, List.filter_append, List.filter_append,
      List.filter_append, hex2, hpq2, hver2]
    rcases setup_dlq_trace broker with h | h <;> rw [h]
    · exact Or.inl rfl
    · exact Or.inr rfl

/-- C9 counterexample: the reporter's output is this fixed list of lines —
it is a constant taking neither a provisioning report nor a verification
report, each queue block consists solely of the name, priority, TTL,
max-length and routing lines, and no line of the output carries any of the
script's pass/fail markers. -/
theorem reporter_no_status_counterexample :
    print_queue_summary =
      ["\n📊 Priority Queue Yapılandırması:",
       String.mk (List.replicate 60 '='),
       "🎯 critical-priority-queue", "   Priority: 255/255", "   TTL: 60.0s",
       "   Max Length: 1000", "   Routing: priority.critical", "",
       "🎯 high-priority-queue", "   Priority: 200/255", "   TTL: 300.0s",
       "   Max Length: 5000", "   Routing: priority.high", "",
       "🎯 normal-priority-queue", "   Priority: 100/255", "   TTL: 600.0s",
       "   Max Length: 10000", "   Routing: priority.normal", "",
       "🎯 low-priority-queue", "   Priority: 50/255", "   TTL: 1800.0s",
       "   Max Length: 20000", "   Routing: priority.low", "",
       "🎯 batch-queue", "   Priority: 10/255", "   TTL: 3600.0s",
       "   Max Length: 50000", "   Routing: priority.batch", "",
       "🎯 anomaly-queue", "   Priority: 150/255", "   TTL: 300.0s",
       "   Max Length: 2000", "   Routing: anomaly.detected", ""] ∧
    (∀ s ∈ print_queue_summary,
      pySubstr "✅".toList s.toList = false ∧
      pySubstr "❌".toList s.toList = false ∧
      pySubstr "OK".toList s.toList = false ∧
      pySubstr "FAIL".toList s.toList = false) := by
  constructor
  · rfl
  · decide

/-- C9 amended: the reporter is a pure formatting function with no broker
interaction; its output contains, for every configured queue tier, a
contiguous block showing the tier's priority ceiling (out of 255), its TTL
converted to seconds, its max length and its routing key — but it receives
no provisioning or verification report and emits no pass/fail status. -/
theorem summary_blocks :
    (∀ q ∈ PRIORITY_QUEUES,
      ∃ pre post, print_queue_summary = pre ++ (summaryBlock q.1 q.2 ++ post)) ∧
    summaryBlock "critical-priority-queue" ⟨255, 60000, 1000, "priority.critical"⟩ =
      ["🎯 critical-priority-queue", "   Priority: 255/255", "   TTL: 60.0s",
       "   Max Length: 1000", "   Routing: priority.critical", ""] ∧
    summaryBlock "anomaly-queue" ⟨150, 300000, 2000, "anomaly.detected"⟩ =
      ["🎯 anomaly-queue", "   Priority: 150/255", "   TTL: 300.0s",
       "   Max Length: 2000", "   Routing: anomaly.detected", ""] := by
  refine ⟨?_, rfl, rfl⟩
  intro q hq
  rcases flatten_map_mem_decomp (fun q => summaryBlock q.1 q.2) PRIORITY_QUEUES q hq
    with ⟨pre, post, hp⟩
  refine ⟨["\n📊 Priority Queue Yapılandırması:",
    String.mk (List.replicate 60 '=')] ++ pre, post, ?_⟩
  rw [print_queue_summary, hp]
  simp [List.append_assoc]

/-- Witness for C9 amended: instantiated at `critical-priority-queue`. -/
theorem summary_blocks_witness :
    ("critical-priority-queue", (⟨255, 60000, 1000, "priority.critical"⟩ : QueueConfig))
      ∈ PRIORITY_QUEUES ∧
    ∃ pre post, print_queue_summary = pre ++
      (summaryBlock "critical-priority-queue" ⟨255, 60000, 1000, "priority.critical"⟩
        ++ post) :=
  ⟨by decide,
   summary_blocks.1 ("critical-priority-queue", ⟨255, 60000, 1000, "priority.critical"⟩)
     (by decide)⟩

/-- C10: the dead-letter queue's own declaration carries no arguments table
at all (durable, `arguments=None`) and is issued on every run of the DLQ
stage, whereas every configured priority queue is declared with the
six-entry arguments table carrying max-priority, TTL, max-length,
dead-letter target and overflow keys. -/
theorem dlq_declare_no_arguments :
    opArguments dlqDeclareOp = none ∧
    opDurable dlqDeclareOp = true ∧
    (∀ broker : Op → Bool, dlqDeclareOp ∈ (setup_dlq broker).1) ∧
    (∀ q ∈ PRIORITY_QUEUES,
      opArguments (queueDeclareOp q.1 q.2) = some (queueArguments q.2) ∧
      (queueArguments q.2).map Prod.fst =
        ["x-max-priority", "x-message-ttl", "x-max-length",
         "x-dead-letter-exchange", "x-dead-letter-routing-key", "x-overflow"]) := by
  refine ⟨rfl, rfl, ?_, by decide⟩
  intro broker
  rcases setup_dlq_trace broker with h | h <;> rw [h] <;> simp

/-- Witness for C10: instantiated at `critical-priority-queue` and at the
all-acknowledging broker. -/
theorem dlq_declare_no_arguments_witness :
    ("critical-priority-queue", (⟨255, 60000, 1000, "priority.critical"⟩ : QueueConfig))
      ∈ PRIORITY_QUEUES ∧
    dlqDeclareOp ∈ (setup_dlq fun _ => true).1 ∧
    opArguments (queueDeclareOp "critical-priority-queue"
      ⟨255, 60000, 1000, "priority.critical"⟩) =
      some (queueArguments ⟨255, 60000, 1000, "priority.critical"⟩) :=
  ⟨by decide, dlq_declare_no_arguments.2.2.1 (fun _ => true),
   (dlq_declare_no_arguments.2.2.2
     ("critical-priority-queue", ⟨255, 60000, 1000, "priority.critical"⟩)
     (by decide)).1⟩

end PQSetup
